import Mathlib

/-!
Shallow embedding of `mobly/controllers/android_device_lib/adb.py`.

Captured stdout and stderr byte streams are modelled as the strings they
decode to, so Python's `bytes.decode("utf-8")` / `str(out, "utf-8")` is the
identity in this model.  The subprocess collaborator
(`subprocess.Popen` + `communicate`) is abstracted as a function from the
command (shell string or argument vector) and the shell flag to the triple
(stdout, stderr, exit code).

Python string primitives used by the source (`str.strip`, `str.split`,
`str.replace` with a one-character pattern, `int(...)` on decimal text) are
given executable char-level models below, since the claims are settled by
evaluating them on concrete inputs.
-/

/-- The whitespace set of Python's `str.strip()`:
space, tab, newline, carriage return, vertical tab, form feed. -/
def pyIsSpace (c : Char) : Bool :=
  c == ' ' || c == '\t' || c == '\n' || c == '\r' || c == '\x0b' || c == '\x0c'

/-- `str.strip()` on a char list: drop whitespace from both ends. -/
def pyStripChars (s : List Char) : List Char :=
  ((s.dropWhile pyIsSpace).reverse.dropWhile pyIsSpace).reverse

/-- `str.strip()`. -/
def pyStrip (s : String) : String :=
  String.mk (pyStripChars s.data)

/-- `str.split(sep)` for a non-empty separator, on char lists: scan left to
right, cutting at each non-overlapping occurrence of `sep`.  `fuel` bounds
the recursion; it is instantiated with the length of the scanned list, which
suffices because each step consumes at least one character. -/
def pySplitChars (sep : List Char) : Nat → List Char → List Char → List (List Char)
  | _, [], acc => [acc.reverse]
  | 0, s, acc => [acc.reverse ++ s]
  | fuel + 1, c :: cs, acc =>
    if sep.isPrefixOf (c :: cs) then
      acc.reverse :: pySplitChars sep fuel (List.drop sep.length (c :: cs)) []
    else
      pySplitChars sep fuel cs (c :: acc)

/-- `s.split(sep)` for a non-empty separator. -/
def pySplit (sep s : String) : List String :=
  (pySplitChars sep.data s.data.length s.data []).map String.mk

/-- Value of a decimal digit list, most significant first. -/
def digitsToNat (ds : List Char) : Nat :=
  ds.foldl (fun n c => 10 * n + (c.toNat - 48)) 0

/-- Python `int(s)` on decimal text: optional surrounding whitespace, an
optional sign, then a non-empty run of digits; `none` models the
`ValueError` raised on anything else. -/
def pyInt (s : String) : Option Int :=
  match pyStripChars s.data with
  | '-' :: ds =>
    if !ds.isEmpty && ds.all Char.isDigit then some (-(digitsToNat ds : Int)) else none
  | '+' :: ds =>
    if !ds.isEmpty && ds.all Char.isDigit then some ((digitsToNat ds : Int)) else none
  | ds =>
    if !ds.isEmpty && ds.all Char.isDigit then some ((digitsToNat ds : Int)) else none

/-- `s.replace(old, new)` for a one-character pattern: every occurrence of
`old` is replaced by `new`. -/
def pyReplaceChar (old new : Char) (s : String) : String :=
  String.mk (s.data.map fun c => if c == old then new else c)

/-- A fully formed command handed to the process spawner: either a single
shell string (`shell=True`) or an argument vector (`shell=False`). -/
inductive Cmd where
  | str (s : String)
  | argv (l : List String)
deriving DecidableEq, Repr

/-- What spawning a process yields: captured stdout, captured stderr
(as decoded strings) and the exit code. -/
structure ProcResult where
  out : String
  err : String
  ret : Int
deriving DecidableEq, Repr

/-- The subprocess collaborator: maps the command and the shell flag to the
captured result.  `subprocess.Popen` + `communicate` + `returncode`,
abstracted as an opaque-to-the-module function. -/
def Spawner : Type :=
  Cmd → Bool → ProcResult

/-- `AdbError.__init__`: the structured error carrying the attempted
command, captured stdout, captured stderr and the non-zero exit code. -/
structure AdbError where
  cmd : Cmd
  stdout : String
  stderr : String
  ret_code : Int
deriving DecidableEq, Repr

/-- `AdbProxy.__init__(self, serial='')`: the proxy holds only the serial. -/
structure AdbProxy where
  serial : String
deriving DecidableEq, Repr

/-- `AdbProxy._exec_cmd`: spawn the process, return captured stdout when the
exit code is 0, otherwise raise `AdbError(cmd, out, err, ret)`.  The debug
logging on line 93 of the source is a side effect outside the return
contract and is not modelled. -/
def exec_cmd (run : Spawner) (cmd : Cmd) (shell : Bool) : Except AdbError String :=
  let r := run cmd shell
  if r.ret = 0 then
    Except.ok r.out
  else
    Except.error { cmd := cmd, stdout := r.out, stderr := r.err, ret_code := r.ret }

/-- The string-or-list argument payload of `_exec_adb_cmd`
(`isinstance(args, basestring)` distinguishes the two). -/
inductive Args where
  | str (s : String)
  | list (l : List String)
deriving DecidableEq, Repr

/-- `AdbProxy._exec_adb_cmd`: a string payload yields one shell string
`adb [-s "<serial>"] <name> <args>` run with `shell=True`; a list payload
yields the vector `['adb'] (++ ['-s', serial]) ++ [name] ++ args` run with
`shell=False`.  `if self.serial:` is Python string truthiness. -/
def exec_adb_cmd (run : Spawner) (p : AdbProxy) (name : String) (args : Args) :
    Except AdbError String :=
  match args with
  | Args.str a =>
    let adb_cmd :=
      if p.serial ≠ "" then
        "adb -s \"" ++ p.serial ++ "\" " ++ name ++ " " ++ a
      else
        "adb " ++ name ++ " " ++ a
    exec_cmd run (Cmd.str adb_cmd) true
  | Args.list l =>
    let adb_cmd := ["adb"] ++ (if p.serial ≠ "" then ["-s", p.serial] else []) ++ [name] ++ l
    exec_cmd run (Cmd.argv adb_cmd) false

/-- Python truthiness of the `args` payload, as tested by `args or ''`:
a string is truthy iff non-empty, a list iff non-empty. -/
def Args.truthy : Args → Bool
  | Args.str s => !s.data.isEmpty
  | Args.list l => !l.isEmpty

/-- `args = args or ''` in `adb_call`: an absent (`None`) or falsy payload
is coerced to the empty string. -/
def orEmptyStr (args : Option Args) : Args :=
  match args with
  | none => Args.str ""
  | some a => if a.truthy then a else Args.str ""

/-- The `adb_call` closure returned by `AdbProxy.__getattr__(name)`:
coerce the payload with `args or ''`, normalise the requested name with
`name.replace('_', '-')`, and dispatch to `_exec_adb_cmd`. -/
def adb_call (run : Spawner) (p : AdbProxy) (name : String) (args : Option Args) :
    Except AdbError String :=
  exec_adb_cmd run p (pyReplaceChar '_' '-' name) (orEmptyStr args)

/-- `AdbProxy.tcp_forward`: `self.forward('tcp:%d tcp:%d' % (host, device))`,
discarding the output (`forward` resolves through `__getattr__`). -/
def tcp_forward (run : Spawner) (p : AdbProxy) (host_port device_port : Int) :
    Except AdbError Unit :=
  Except.map (fun _ => ())
    (adb_call run p "forward"
      (some (Args.str ("tcp:" ++ toString host_port ++ " tcp:" ++ toString device_port))))

/-- `AdbProxy.getprop`:
`self.shell('getprop %s' % prop_name).decode('utf-8').strip()`
(`shell` resolves through `__getattr__`; decoding is the identity here). -/
def getprop (run : Spawner) (p : AdbProxy) (prop_name : String) : Except AdbError String :=
  Except.map (fun out => pyStrip out)
    (adb_call run p "shell" (some (Args.str ("getprop " ++ prop_name))))

/-- The parsing loop of `list_occupied_adb_ports` over the clean lines:
split each line on the literal `' tcp:'`, skip lines that do not yield
exactly 3 tokens, parse token 1 of the others with `int(...)`, appending in
line order; `none` models the `ValueError` escaping the loop. -/
def parse_occupied_ports : List String → Option (List Int)
  | [] => some []
  | line :: rest =>
    let tokens := pySplit " tcp:" line
    if tokens.length = 3 then
      match pyInt (tokens.getD 1 ""), parse_occupied_ports rest with
      | some p, some ps => some (p :: ps)
      | _, _ => none
    else
      parse_occupied_ports rest

/-- `list_occupied_adb_ports()`: run `AdbProxy().forward('--list')`, decode,
strip, split into lines and parse them; an `AdbError` from the invocation
propagates unchanged. -/
def list_occupied_adb_ports (run : Spawner) : Except AdbError (Option (List Int)) :=
  match adb_call run { serial := "" } "forward" (some (Args.str "--list")) with
  | Except.error e => Except.error e
  | Except.ok out => Except.ok (parse_occupied_ports (pySplit "\n" (pyStrip out)))

/-- Helper: the parsing loop is the monadic map of the token-1 integer parse
over the well-formed lines (those splitting into exactly 3 tokens), in
order. -/
theorem parse_occupied_ports_eq_filter_mapM (lines : List String) :
    parse_occupied_ports lines =
      (lines.filter fun l => (pySplit " tcp:" l).length == 3).mapM'
        (fun l => pyInt ((pySplit " tcp:" l).getD 1 "")) := by
  induction lines with
  | nil => rfl
  | cons line rest ih =>
    by_cases h : (pySplit " tcp:" line).length = 3
    · rw [List.filter_cons_of_pos (by simpa using h)]
      simp only [parse_occupied_ports, if_pos h, List.mapM'_cons, ih]
      cases hp : pyInt ((pySplit " tcp:" line).getD 1 "") <;>
        cases hr : (rest.filter fun l => (pySplit " tcp:" l).length == 3).mapM'
            (fun l => pyInt ((pySplit " tcp:" l).getD 1 "")) <;>
          simp [hp, hr]
    · rw [List.filter_cons_of_neg (by simpa using h)]
      simp only [parse_occupied_ports, if_neg h, ih]


/-- C1: for every invocation through `_exec_cmd`, if the spawned process
exits with code 0 the operation returns the captured stdout verbatim and
raises no error, whatever the captured stderr is: stderr plays no role in
determining success. -/
theorem exec_cmd_exit_zero_returns_stdout (run : Spawner) (cmd : Cmd) (shell : Bool)
    (h : (run cmd shell).ret = 0) :
    exec_cmd run cmd shell = Except.ok (run cmd shell).out := by
  simp [exec_cmd, h]

theorem exec_cmd_exit_zero_returns_stdout_witness :
    exec_cmd (fun _ _ => ⟨"device-list-bytes", "adb server diagnostics", 0⟩)
        (Cmd.str "adb devices") true =
      Except.ok "device-list-bytes" :=
  exec_cmd_exit_zero_returns_stdout
    (fun _ _ => ⟨"device-list-bytes", "adb server diagnostics", 0⟩)
    (Cmd.str "adb devices") true rfl

/-- C2: `_exec_cmd` fails with an `AdbError` if and only if the spawned
process exits non-zero, and the error's four fields are exactly the command
attempted, the captured stdout, the captured stderr, and that exit code. -/
theorem exec_cmd_error_iff (run : Spawner) (cmd : Cmd) (shell : Bool) (e : AdbError) :
    exec_cmd run cmd shell = Except.error e ↔
      ((run cmd shell).ret ≠ 0 ∧
        e.cmd = cmd ∧
        e.stdout = (run cmd shell).out ∧
        e.stderr = (run cmd shell).err ∧
        e.ret_code = (run cmd shell).ret) := by
  obtain ⟨ec, eo, ee, er⟩ := e
  by_cases h : (run cmd shell).ret = 0 <;>
    simp [exec_cmd, h, AdbError.mk.injEq, eq_comm, and_assoc]

/-- C3: in `_exec_adb_cmd` the shape of the argument payload selects the
execution mode: a single string yields one command line (binary, optional
quoted `-s` target flag, subcommand, argument string) run through the shell;
a token list yields an explicit argument vector (binary, optional `-s`
target pair, subcommand, then each token) run without shell
interpretation. -/
theorem exec_adb_cmd_mode_selection (run : Spawner) (p : AdbProxy) (name : String) :
    (∀ a : String,
      exec_adb_cmd run p name (Args.str a) =
        exec_cmd run
          (Cmd.str
            (if p.serial ≠ "" then "adb -s \"" ++ p.serial ++ "\" " ++ name ++ " " ++ a
             else "adb " ++ name ++ " " ++ a))
          true) ∧
    (∀ l : List String,
      exec_adb_cmd run p name (Args.list l) =
        exec_cmd run
          (Cmd.argv ("adb" :: (if p.serial ≠ "" then ["-s", p.serial] else []) ++ name :: l))
          false) := by
  refine ⟨fun a => ?_, fun l => ?_⟩ <;>
    by_cases h : p.serial = "" <;> simp [exec_adb_cmd, h]

/-- C4: the dispatch closure built by `__getattr__` replaces every
underscore of the requested name by a hyphen (character-wise over the whole
name) before using it as the subcommand token; e.g. a requested
`tcp_forward` dispatches the token `tcp-forward`. -/
theorem adb_call_replaces_underscores (run : Spawner) (p : AdbProxy) (name : String)
    (args : Option Args) :
    adb_call run p name args =
      exec_adb_cmd run p (pyReplaceChar '_' '-' name) (orEmptyStr args) ∧
    (pyReplaceChar '_' '-' name).data =
      (name.data.map fun c => if c = '_' then '-' else c) ∧
    (∀ c ∈ (pyReplaceChar '_' '-' name).data, c ≠ '_') ∧
    pyReplaceChar '_' '-' "tcp_forward" = "tcp-forward" := by
  have hfun : ∀ c : Char, (if c == '_' then '-' else c) = (if c = '_' then '-' else c) := by
    intro c
    by_cases h : c = '_' <;> simp [h]
  refine ⟨rfl, by simp [pyReplaceChar, hfun], ?_, by decide⟩
  intro c hc
  simp only [pyReplaceChar, List.mem_map] at hc
  obtain ⟨a, _, rfl⟩ := hc
  by_cases h : a = '_' <;> simp [h]

theorem adb_call_replaces_underscores_witness :
    ('-' : Char) ≠ '_' :=
  (adb_call_replaces_underscores (fun _ _ => ⟨"", "", 0⟩) ⟨""⟩ "tcp_forward"
    none).2.2.1 '-' (by decide)

/-- C5: `list_occupied_adb_ports` splits the decoded, stripped output into
lines, splits each line on the literal `' tcp:'`, silently skips lines not
yielding exactly 3 tokens, parses token 1 of the others as an integer, and
returns the integers in line order (monadic map over the filtered lines: no
sorting, no deduplication); on the three-line sample output with one
malformed line it returns exactly `[5037, 6000]`. -/
theorem list_occupied_ports_parsing :
    (∀ lines : List String,
      parse_occupied_ports lines =
        (lines.filter fun l => (pySplit " tcp:" l).length == 3).mapM'
          (fun l => pyInt ((pySplit " tcp:" l).getD 1 ""))) ∧
    (∀ run : Spawner,
      run (Cmd.str "adb forward --list") true =
        ⟨"emulator-5554 tcp:5037 tcp:5555\nmalformed-line-no-tcp-tokens\nemulator-5556 tcp:6000 tcp:7000\n",
          "", 0⟩ →
      list_occupied_adb_ports run = Except.ok (some [5037, 6000])) := by
  refine ⟨parse_occupied_ports_eq_filter_mapM, fun run h => ?_⟩
  have hcall : adb_call run { serial := "" } "forward" (some (Args.str "--list")) =
      exec_cmd run (Cmd.str "adb forward --list") true := rfl
  unfold list_occupied_adb_ports
  rw [hcall]
  unfold exec_cmd
  rw [h]
  rfl

theorem list_occupied_ports_parsing_witness :
    list_occupied_adb_ports
        (fun _ _ =>
          ⟨"emulator-5554 tcp:5037 tcp:5555\nmalformed-line-no-tcp-tokens\nemulator-5556 tcp:6000 tcp:7000\n",
            "", 0⟩) =
      Except.ok (some [5037, 6000]) :=
  list_occupied_ports_parsing.2
    (fun _ _ =>
      ⟨"emulator-5554 tcp:5037 tcp:5555\nmalformed-line-no-tcp-tokens\nemulator-5556 tcp:6000 tcp:7000\n",
        "", 0⟩)
    rfl

/-- C6: if the forwarding-list invocation succeeds and its raw output is
empty or whitespace-only, `list_occupied_adb_ports` returns the empty list
and raises no error. -/
theorem list_occupied_ports_empty_output (run : Spawner) (out err : String)
    (hrun : run (Cmd.str "adb forward --list") true = ⟨out, err, 0⟩)
    (hout : pyStrip out = "") :
    list_occupied_adb_ports run = Except.ok (some []) := by
  have hcall : adb_call run { serial := "" } "forward" (some (Args.str "--list")) =
      exec_cmd run (Cmd.str "adb forward --list") true := rfl
  unfold list_occupied_adb_ports
  rw [hcall]
  unfold exec_cmd
  rw [hrun]
  show Except.ok (parse_occupied_ports (pySplit "\n" (pyStrip out))) = Except.ok (some [])
  rw [hout]
  rfl

theorem list_occupied_ports_empty_output_witness :
    list_occupied_adb_ports (fun _ _ => ⟨"  \n\t  ", "", 0⟩) = Except.ok (some []) :=
  list_occupied_ports_empty_output (fun _ _ => ⟨"  \n\t  ", "", 0⟩) "  \n\t  " "" rfl
    (by decide)

/-- C7: `tcp_forward(5555, 8080)` on a proxy with empty serial is the
invocation of the `forward` subcommand with the single-string argument
`tcp:5555 tcp:8080` — hence shell mode on the command line
`adb forward tcp:5555 tcp:8080` with no target flag — and its output is
discarded, leaving only success or failure. -/
theorem tcp_forward_5555_8080 (run : Spawner) :
    tcp_forward run { serial := "" } 5555 8080 =
      Except.map (fun _ => ())
        (adb_call run { serial := "" } "forward" (some (Args.str "tcp:5555 tcp:8080"))) ∧
    tcp_forward run { serial := "" } 5555 8080 =
      Except.map (fun _ => ())
        (exec_cmd run (Cmd.str "adb forward tcp:5555 tcp:8080") true) :=
  ⟨rfl, rfl⟩

/-- C8: `getprop name` invokes the `shell` subcommand with the single-string
argument `getprop <name>`, and — stdout bytes being modelled as their UTF-8
decoding — returns the whitespace-stripped decoded stdout; concretely, with
empty serial it runs the shell string `adb shell getprop ro.build.version.sdk`
and returns `pyStrip` of the captured stdout. -/
theorem getprop_shell_getprop (run : Spawner) (p : AdbProxy) (prop_name : String) :
    getprop run p prop_name =
      Except.map (fun out => pyStrip out)
        (adb_call run p "shell" (some (Args.str ("getprop " ++ prop_name)))) ∧
    (∀ v e : String,
      run (Cmd.str "adb shell getprop ro.build.version.sdk") true = ⟨v, e, 0⟩ →
      getprop run { serial := "" } "ro.build.version.sdk" = Except.ok (pyStrip v)) := by
  refine ⟨rfl, fun v e h => ?_⟩
  have hcall : adb_call run { serial := "" } "shell"
        (some (Args.str "getprop ro.build.version.sdk")) =
      exec_cmd run (Cmd.str "adb shell getprop ro.build.version.sdk") true := rfl
  have happ : ("getprop " ++ "ro.build.version.sdk" : String) =
      "getprop ro.build.version.sdk" := rfl
  unfold getprop
  rw [happ, hcall]
  unfold exec_cmd
  rw [h]
  rfl

theorem getprop_shell_getprop_witness :
    getprop (fun _ _ => ⟨" 23\n", "adbd diagnostics", 0⟩) { serial := "" }
        "ro.build.version.sdk" =
      Except.ok "23" :=
  (getprop_shell_getprop (fun _ _ => ⟨" 23\n", "adbd diagnostics", 0⟩) { serial := "" }
    "ro.build.version.sdk").2 " 23\n" "adbd diagnostics" rfl

/-- C9: the proxy's serial, fixed at construction, is all an invocation
depends on and is reflected consistently by `_exec_adb_cmd`: with a
non-empty serial, string mode runs `adb -s "<serial>" <name> <args>` and
list mode passes `-s` and the serial as two separate vector elements; with
an empty serial neither mode contains a target flag.  (The embedding is
pure: no operation of the module writes to the serial field.) -/
theorem serial_consistency (run : Spawner) (p : AdbProxy) (name : String) :
    (p.serial ≠ "" →
      (∀ a, exec_adb_cmd run p name (Args.str a) =
        exec_cmd run
          (Cmd.str ("adb -s \"" ++ p.serial ++ "\" " ++ name ++ " " ++ a)) true) ∧
      (∀ l, exec_adb_cmd run p name (Args.list l) =
        exec_cmd run (Cmd.argv ("adb" :: "-s" :: p.serial :: name :: l)) false)) ∧
    (p.serial = "" →
      (∀ a, exec_adb_cmd run p name (Args.str a) =
        exec_cmd run (Cmd.str ("adb " ++ name ++ " " ++ a)) true) ∧
      (∀ l, exec_adb_cmd run p name (Args.list l) =
        exec_cmd run (Cmd.argv ("adb" :: name :: l)) false)) := by
  constructor <;> intro h <;> constructor <;> intro x <;> simp [exec_adb_cmd, h]

theorem serial_consistency_witness :
    exec_adb_cmd (fun _ _ => ⟨"", "", 0⟩) { serial := "emulator-5554" } "shell"
        (Args.list ["ls"]) =
      exec_cmd (fun _ _ => ⟨"", "", 0⟩)
        (Cmd.argv ["adb", "-s", "emulator-5554", "shell", "ls"]) false ∧
    exec_adb_cmd (fun _ _ => ⟨"", "", 0⟩) { serial := "" } "devices" (Args.str "") =
      exec_cmd (fun _ _ => ⟨"", "", 0⟩) (Cmd.str "adb devices ") true :=
  ⟨((serial_consistency (fun _ _ => ⟨"", "", 0⟩) { serial := "emulator-5554" }
      "shell").1 (by decide)).2 ["ls"],
   ((serial_consistency (fun _ _ => ⟨"", "", 0⟩) { serial := "" }
      "devices").2 rfl).1 ""⟩

/-- C10: for the dispatch closure of `__getattr__`, an empty token list is
indistinguishable from an absent payload: `args or ''` coerces both (and
the empty string) to the empty string, so the invocation runs in shell mode
with no extra arguments — with empty serial, the shell string
`adb <name> ` — and argument-vector execution is unreachable for an empty
token list. -/
theorem empty_list_args_runs_shell_mode (run : Spawner) (p : AdbProxy) (name : String) :
    adb_call run p name (some (Args.list [])) = adb_call run p name none ∧
    adb_call run p name (some (Args.list [])) = adb_call run p name (some (Args.str "")) ∧
    adb_call run p name (some (Args.list [])) =
      exec_adb_cmd run p (pyReplaceChar '_' '-' name) (Args.str "") ∧
    (p.serial = "" →
      adb_call run p name (some (Args.list [])) =
        exec_cmd run (Cmd.str ("adb " ++ pyReplaceChar '_' '-' name ++ " ")) true) := by
  refine ⟨rfl, rfl, rfl, fun h => ?_⟩
  show exec_adb_cmd run p (pyReplaceChar '_' '-' name) (Args.str "") = _
  simp [exec_adb_cmd, h]

theorem empty_list_args_runs_shell_mode_witness :
    adb_call (fun _ _ => ⟨"", "", 0⟩) { serial := "" } "devices" (some (Args.list [])) =
      exec_cmd (fun _ _ => ⟨"", "", 0⟩) (Cmd.str "adb devices ") true :=
  (empty_list_args_runs_shell_mode (fun _ _ => ⟨"", "", 0⟩) { serial := "" }
    "devices").2.2.2 rfl
